import Mathlib

/-!
# Verification of q6voiced (src/main.cpp)

A shallow embedding of the q6voiced daemon: a single-threaded helper that
bridges ModemManager call-state signals to an audio-hardware session
(two PCM streams plus two loopback helper processes) and a hook script.

The embedding follows `src/main.cpp`.  External collaborators (the dbus
library, the `process::Process` spawn/join primitive, the tinyalsa calls,
the hook script itself) are represented as observable effects recorded in a
trace; the `ensure` fail-fast macros treat any of their failures as fatal,
so the handler logic is modelled on the path where these external
operations succeed, while the one failure the code itself distinguishes
(a malformed signal body, which sets the dbus error and makes the main
loop abort) is modelled explicitly.
-/

namespace Q6Voiced

/-- Interface name constants from `namespace iface` in main.cpp. -/
def iface_call : String := "org.freedesktop.ModemManager1.Call"

/-- Interface name `org.freedesktop.ModemManager1.Modem.Voice` from main.cpp. -/
def iface_modem_voice : String := "org.freedesktop.ModemManager1.Modem.Voice"

/-! ## Call-state classifier (`is_mm_state_active`) -/

def MM_CALL_STATE_UNKNOWN : Nat := 0
def MM_CALL_STATE_DIALING : Nat := 1
def MM_CALL_STATE_RINGING_OUT : Nat := 2
def MM_CALL_STATE_RINGING_IN : Nat := 3
def MM_CALL_STATE_ACTIVE : Nat := 4
def MM_CALL_STATE_HELD : Nat := 5
def MM_CALL_STATE_WAITING : Nat := 6
def MM_CALL_STATE_TERMINATED : Nat := 7

/-- `is_mm_state_active` from main.cpp: the switch returns `true` for the
cases DIALING, RINGING_OUT and ACTIVE and `false` in the default case.
The C parameter is a `dbus_uint32_t`; we model its value as a `Nat`. -/
def is_mm_state_active (state : Nat) : Bool :=
  if state = MM_CALL_STATE_DIALING then true
  else if state = MM_CALL_STATE_RINGING_OUT then true
  else if state = MM_CALL_STATE_ACTIVE then true
  else false

/-! ## Observable effects

Every interaction of the daemon with the outside world (script execution,
PCM stream handling, helper-process handling) is recorded as an `Effect`.
`run_script` spawns the hook script and joins it synchronously, so a hook
invocation is one atomic `runScript` effect. -/

/-- Direction of a PCM stream: `PCM_IN` (capture) or `PCM_OUT` (playback). -/
inductive StreamDir where
  | capture
  | playback
  deriving DecidableEq, Repr

/-- Role flag passed to `/bin/pw-loopback`: the first spawn exposes an audio
sink bound to capture, the second an audio source bound to playback. -/
inductive LoopbackRole where
  | sink
  | source
  deriving DecidableEq, Repr

/-- One observable external action of the daemon. -/
inductive Effect where
  /-- `run_script`: spawn the hook script with one action argument and join it. -/
  | runScript (script : String) (action : String)
  /-- `pcm_open(card, device, dir, voice_call_config)`. -/
  | pcmOpen (card device : Nat) (dir : StreamDir)
  /-- `pcm_is_ready` check on the stream just opened. -/
  | pcmIsReady (dir : StreamDir)
  /-- `pcm_prepare` on the stream just opened. -/
  | pcmPrepare (dir : StreamDir)
  /-- spawn of one `/bin/pw-loopback` helper process. -/
  | spawnLoopback (role : LoopbackRole)
  /-- `proc.join(true)` on helper process `idx` (0 or 1). -/
  | procJoin (idx : Nat)
  /-- `pcm_close` via the `AutoPCM` destructor. -/
  | pcmClose (dir : StreamDir)
  deriving DecidableEq, Repr

/-! ## Runtime and Context -/

/-- `struct Runtime`: owns two PCM streams and two helper processes.  The
handles are opaque OS resources; the embedding tracks their lifecycle
through the effect trace, so the structure carries no observable data. -/
structure Runtime where
  deriving DecidableEq, Repr

/-- `struct Context`: the process-wide session context. -/
structure Context where
  card : Nat
  device : Nat
  script : String
  runtime : Option Runtime
  deriving DecidableEq, Repr

/-- Effect trace of `create_runtime` on the success path: open, ready-check
and prepare the capture stream (loop iteration `i = 0`), then the playback
stream (`i = 1`); then spawn the sink loopback helper, then the source
loopback helper. -/
def create_runtime_trace (card device : Nat) : List Effect :=
  [Effect.pcmOpen card device StreamDir.capture,
   Effect.pcmIsReady StreamDir.capture,
   Effect.pcmPrepare StreamDir.capture,
   Effect.pcmOpen card device StreamDir.playback,
   Effect.pcmIsReady StreamDir.playback,
   Effect.pcmPrepare StreamDir.playback,
   Effect.spawnLoopback LoopbackRole.sink,
   Effect.spawnLoopback LoopbackRole.source]

/-- Effect trace of `delete_runtime`: join helper process 0, then helper
process 1; then the `unique_ptr<Runtime>` argument goes out of scope and
the `AutoPCM` destructors close the streams (array members are destroyed
in reverse order, so `pcms[1]` — playback — before `pcms[0]` — capture). -/
def delete_runtime_trace : List Effect :=
  [Effect.procJoin 0,
   Effect.procJoin 1,
   Effect.pcmClose StreamDir.playback,
   Effect.pcmClose StreamDir.capture]

/-! ## Signal bodies and parsing -/

/-- A typed value inside a dbus message body. -/
inductive DBusValue where
  | int32 (v : Int)
  | uint32 (v : Nat)
  | string (s : String)
  | boolean (b : Bool)
  deriving DecidableEq, Repr

/-- Reinterpretation of a signed 32-bit value as `dbus_uint32_t`, as done by
reading a `DBUS_TYPE_INT32` argument into the `dbus_uint32_t` locals. -/
def toUInt32Val (v : Int) : Nat := (v % (2 ^ 32)).toNat

/-- `dbus_message_get_args(message, error, INT32, INT32, INVALID)`.
Modelled from the spec: the dbus parsing machinery is an external
collaborator, specified at its boundary as "body is exactly two 32-bit
signed integers, (old_state, new_state), in that order; absence or type
mismatch is a fatal parse error".  Success yields the two values
reinterpreted as `dbus_uint32_t`. -/
def parse_state_args : List DBusValue → Option (Nat × Nat)
  | [DBusValue.int32 a, DBusValue.int32 b] => some (toUInt32Val a, toUInt32Val b)
  | _ => none

/-- A dbus message as seen by `handle_message`: interface and member may be
absent (`dbus_message_get_interface` / `get_member` return NULL then),
plus the body arguments. -/
structure DBusMessage where
  interface : Option String
  member : Option String
  args : List DBusValue
  deriving DecidableEq, Repr

/-! ## Handlers -/

/-- Result of running one handler: the updated context, the trace of
external effects performed, and whether the dbus error is now set
(`fatal = true` makes the main loop abort via its `ensure`). -/
structure HandlerResult where
  context : Context
  trace : List Effect
  fatal : Bool
  deriving DecidableEq, Repr

/-- The state-transition logic of `handle_call_state_changed` after the
argument parse succeeded, operating on the two `dbus_uint32_t` values. -/
def on_state_pair (context : Context) (old_state new_state : Nat) : HandlerResult :=
  if old_state = new_state then
    { context := context, trace := [], fatal := false }
  else if is_mm_state_active new_state then
    match context.runtime with
    | some _ => { context := context, trace := [], fatal := false }
    | none =>
      { context := { context with runtime := some {} },
        trace := Effect.runScript context.script "voice-start" ::
          create_runtime_trace context.card context.device,
        fatal := false }
  else if is_mm_state_active old_state ∧ ¬ (is_mm_state_active new_state) then
    match context.runtime with
    | none => { context := context, trace := [], fatal := false }
    | some _ =>
      { context := { context with runtime := none },
        trace := delete_runtime_trace ++ [Effect.runScript context.script "voice-stop"],
        fatal := false }
  else
    { context := context, trace := [], fatal := false }

/-- `handle_call_state_changed`: parse the body as two `INT32` values; a
parse failure sets the dbus error (fatal) and performs nothing else;
otherwise run the transition logic. -/
def handle_call_state_changed (context : Context) (args : List DBusValue) : HandlerResult :=
  match parse_state_args args with
  | none => { context := context, trace := [], fatal := true }
  | some (old_state, new_state) => on_state_pair context old_state new_state

/-- `handle_message`: builds `std::string_view`s from the raw interface and
member pointers with no null check, so a message missing either is
undefined behaviour — modelled as `none`.  Otherwise dispatch on the
(interface, member) pair; unrecognized pairs fall through with no effect. -/
def handle_message (context : Context) (message : DBusMessage) : Option HandlerResult :=
  match message.interface, message.member with
  | some interface, some member =>
    some (if interface = iface_call then
            if member = "StateChanged" then
              handle_call_state_changed context message.args
            else
              { context := context, trace := [], fatal := false }
          else if interface = iface_modem_voice then
            if member = "CallAdded" then
              { context := context,
                trace := [Effect.runScript context.script "call-added"],
                fatal := false }
            else
              { context := context, trace := [], fatal := false }
          else
            { context := context, trace := [], fatal := false })
  | _, _ => none

/-- The inner message loop of `main`: handle each popped message, then
`ensure(!dbus_error_is_set(&error))` — if the handler set the error the
loop (and the process) aborts without handling the remaining messages.
`none` propagates the undefined-behaviour case of `handle_message`. -/
def main_loop (context : Context) : List DBusMessage → Option (Context × List Effect × Bool)
  | [] => some (context, [], false)
  | message :: rest =>
    match handle_message context message with
    | none => none
    | some r =>
      if r.fatal then
        some (r.context, r.trace, true)
      else
        match main_loop r.context rest with
        | none => none
        | some (c, t, f) => some (c, r.trace ++ t, f)

/-! ## Startup (`main`) -/

/-- Observable startup actions of `main` before the message loop. -/
inductive StartupEffect where
  | printLine (s : String)
  | busConnect
  deriving DecidableEq, Repr

/-- The usage line printed by `main` when the argument count is wrong. -/
def usage_message : String := "usage: q6voiced CARD_NUM DEVICE_NUM CALLBACK_SCRIPT"

/-- `from_chars<uint32_t>`: external numeric parsing collaborator, modelled
as decimal parsing bounded to 32 bits. -/
def from_chars_u32 (s : String) : Option Nat :=
  match s.toNat? with
  | some n => if n < 2 ^ 32 then some n else none
  | none => none

/-- The startup phase of `main`, up to the bus connection: `argv` is the
full C argument vector (program name included, so `argc = argv.length`).
With `argc != 4` it prints the usage line and returns status 1 before any
bus work; otherwise it parses card and device (an `unwrap` failure prints
nothing we model and returns early with status 0) and then connects to the
system bus. -/
def main_startup (argv : List String) : List StartupEffect × Option Nat :=
  if argv.length ≠ 4 then
    ([StartupEffect.printLine usage_message], some 1)
  else
    match from_chars_u32 (argv.getD 1 "") with
    | none => ([], some 0)
    | some _ =>
      match from_chars_u32 (argv.getD 2 "") with
      | none => ([], some 0)
      | some _ => ([StartupEffect.busConnect], none)

/-! ## Event sequences (for the session invariant) -/

/-- Process a list of already-parsed (old_state, new_state) pairs through
the transition logic, keeping only the resulting context. -/
def run_states (context : Context) : List (Nat × Nat) → Context
  | [] => context
  | e :: rest => run_states (on_state_pair context e.1 e.2).context rest

/-- A (old, new) event list is chained after `prev` when each event's old
state equals the previous event's new state, starting from `prev`. -/
def chained : Nat → List (Nat × Nat) → Prop
  | _, [] => True
  | prev, e :: rest => e.1 = prev ∧ chained e.2 rest

instance (prev : Nat) (events : List (Nat × Nat)) : Decidable (chained prev events) := by
  induction events generalizing prev with
  | nil => exact isTrue trivial
  | cons e rest ih =>
    have : Decidable (e.1 = prev ∧ chained e.2 rest) := by
      have := ih e.2
      infer_instance
    exact this

/-- The new state of the last event, or `prev` when the list is empty. -/
def lastNew (prev : Nat) : List (Nat × Nat) → Nat
  | [] => prev
  | e :: rest => lastNew e.2 rest

/-! ## Helper lemmas -/

/-- A successful parse forces the body to be exactly two `INT32` values. -/
theorem parse_state_args_some_shape (args : List DBusValue) (p : Nat × Nat)
    (h : parse_state_args args = some p) :
    ∃ a b : Int, args = [DBusValue.int32 a, DBusValue.int32 b] := by
  unfold parse_state_args at h
  split at h
  · rename_i a b
    exact ⟨a, b, rfl⟩
  · exact absurd h (by simp)

/-- One transition step preserves the session invariant: if the runtime was
present exactly when the old state is active, it is present after the step
exactly when the new state is active. -/
theorem on_state_pair_runtime_step (c : Context) (old_state new_state : Nat)
    (h : c.runtime.isSome = is_mm_state_active old_state) :
    (on_state_pair c old_state new_state).context.runtime.isSome =
      is_mm_state_active new_state := by
  unfold on_state_pair
  by_cases he : old_state = new_state
  · subst he
    simpa using h
  · simp only [he, if_false]
    by_cases ha : is_mm_state_active new_state
    · cases hr : c.runtime with
      | none => simp [ha, hr]
      | some rt => simp [ha, hr]
    · by_cases ho : is_mm_state_active old_state
      · have hr : c.runtime.isSome = true := by rw [h, ho]
        cases hrc : c.runtime with
        | none => rw [hrc] at hr; simp at hr
        | some rt => simp [ha, ho, hrc]
      · have hr : c.runtime.isSome = false := by
          rw [h]
          simp [ho]
        cases hrc : c.runtime with
        | none => simp [ha, ho, hrc]
        | some rt => rw [hrc] at hr; simp at hr

/-- The session invariant propagated along any chained event list. -/
theorem run_states_invariant :
    ∀ (events : List (Nat × Nat)) (c : Context) (prev : Nat),
      c.runtime.isSome = is_mm_state_active prev →
      chained prev events →
      (run_states c events).runtime.isSome =
        is_mm_state_active (lastNew prev events) := by
  intro events
  induction events with
  | nil =>
    intro c prev h _
    exact h
  | cons e rest ih =>
    intro c prev h hch
    obtain ⟨he, hch'⟩ := hch
    exact ih (on_state_pair c e.1 e.2).context e.2
      (on_state_pair_runtime_step c e.1 e.2 (he ▸ h)) hch'

/-- Every single transition performs either no effects, one complete
creation sequence, or one complete destruction sequence: the three shapes
never interleave. -/
theorem on_state_pair_trace_shapes (c : Context) (old_state new_state : Nat) :
    (on_state_pair c old_state new_state).trace = [] ∨
    (on_state_pair c old_state new_state).trace =
      Effect.runScript c.script "voice-start" :: create_runtime_trace c.card c.device ∨
    (on_state_pair c old_state new_state).trace =
      delete_runtime_trace ++ [Effect.runScript c.script "voice-stop"] := by
  unfold on_state_pair
  by_cases he : old_state = new_state
  · simp [he]
  · simp only [he, if_false]
    by_cases ha : is_mm_state_active new_state
    · cases hr : c.runtime with
      | none => simp [ha, hr]
      | some rt => simp [ha, hr]
    · by_cases ho : is_mm_state_active old_state
      · cases hr : c.runtime with
        | none => simp [ha, ho, hr]
        | some rt => simp [ha, ho, hr]
      · simp [ha, ho]

/-! ## Claim theorems -/

/-- C4: `is_mm_state_active` is a total pure function (a Lean `def` over all
of `Nat`, covering the full `dbus_uint32_t` domain and beyond): it returns
`true` exactly on {Dialing, RingingOut, Active} and `false` on every other
value, in particular on Unknown, RingingIn, Held, Waiting and Terminated
and on every out-of-range integer. -/
theorem is_mm_state_active_characterization :
    (∀ state : Nat,
        is_mm_state_active state = true ↔
          (state = MM_CALL_STATE_DIALING ∨ state = MM_CALL_STATE_RINGING_OUT ∨
           state = MM_CALL_STATE_ACTIVE)) ∧
    is_mm_state_active MM_CALL_STATE_UNKNOWN = false ∧
    is_mm_state_active MM_CALL_STATE_RINGING_IN = false ∧
    is_mm_state_active MM_CALL_STATE_HELD = false ∧
    is_mm_state_active MM_CALL_STATE_WAITING = false ∧
    is_mm_state_active MM_CALL_STATE_TERMINATED = false ∧
    (∀ state : Nat, 7 < state → is_mm_state_active state = false) := by
  refine ⟨?_, by decide, by decide, by decide, by decide, by decide, ?_⟩
  · intro state
    unfold is_mm_state_active
    split_ifs with h1 h2 h3 <;> simp_all
  · intro state hstate
    unfold is_mm_state_active
    unfold MM_CALL_STATE_DIALING MM_CALL_STATE_RINGING_OUT MM_CALL_STATE_ACTIVE
    split_ifs with h1 h2 h3
    · omega
    · omega
    · omega
    · rfl

/-- A sample session context with no runtime, for concrete instantiations. -/
def sampleContext : Context :=
  { card := 1, device := 2, script := "hook", runtime := none }

/-- A sample session context holding a runtime, for concrete instantiations. -/
def sampleContextRt : Context :=
  { card := 1, device := 2, script := "hook", runtime := some {} }

/-- C1 counterexample: the claim quantifies over every event sequence, but
the handler only reacts to the old state it is told, not to the state it
last stored.  From the initial state, the events (6, 4) then (9, 5) leave
a Runtime present (the second event matches no branch: 5 is inactive and
9 is inactive), while the most recently received new state 5 (Held) is
inactive — refuting the claimed equivalence. -/
theorem session_runtime_invariant_counterexample :
    (run_states { card := 0, device := 0, script := "hook", runtime := none }
        [(6, 4), (9, 5)]).runtime.isSome = true ∧
    is_mm_state_active 5 = false := by
  constructor
  · rfl
  · rfl

/-- C1 (amended): for every chained sequence of StateChanged events (each
event's old state equals the previous event's new state, and the first
event's old state classifies inactive, matching the initial no-Runtime
state), after processing the sequence from the initial state a Runtime is
present iff the most recently received new state classifies active; since
every prefix of such a sequence is again such a sequence, this holds after
each handler call.  Moreover each single handler call performs either no
effects, one contiguous creation sequence, or one contiguous destruction
sequence, so no two Runtimes ever coexist (the context stores at most one)
and creation and destruction never interleave. -/
theorem session_runtime_invariant :
    (∀ (card device : Nat) (script : String) (events : List (Nat × Nat)) (first_old : Nat),
        is_mm_state_active first_old = false →
        chained first_old events →
        (run_states { card := card, device := device, script := script, runtime := none }
            events).runtime.isSome = is_mm_state_active (lastNew first_old events)) ∧
    (∀ (c : Context) (old_state new_state : Nat),
        (on_state_pair c old_state new_state).trace = [] ∨
        (on_state_pair c old_state new_state).trace =
          Effect.runScript c.script "voice-start" :: create_runtime_trace c.card c.device ∨
        (on_state_pair c old_state new_state).trace =
          delete_runtime_trace ++ [Effect.runScript c.script "voice-stop"]) := by
  constructor
  · intro card device script events first_old h hch
    exact run_states_invariant events _ first_old (by simp [h]) hch
  · exact on_state_pair_trace_shapes

/-- Witness for C1 (amended) on the concrete chained run 0→4→7. -/
theorem session_runtime_invariant_witness :
    is_mm_state_active 0 = false ∧
    chained 0 [(0, 4), (4, 7)] ∧
    (run_states { card := 0, device := 0, script := "hook", runtime := none }
        [(0, 4), (4, 7)]).runtime.isSome = is_mm_state_active (lastNew 0 [(0, 4), (4, 7)]) :=
  ⟨by decide, by decide,
   session_runtime_invariant.1 0 0 "hook" [(0, 4), (4, 7)] 0 (by decide) (by decide)⟩

/-- C2: a StateChanged event with old ≠ new, new classified active and no
Runtime present performs exactly one voice-start hook invocation (the hook
is run and joined before anything else), then the creation sequence in the
fixed order: open/ready-check/prepare capture, open/ready-check/prepare
playback, spawn sink loopback, spawn source loopback — and the Runtime is
then present. -/
theorem idle_to_session_transition (c : Context) (old_state new_state : Nat)
    (hne : old_state ≠ new_state)
    (hact : is_mm_state_active new_state = true)
    (hrt : c.runtime = none) :
    on_state_pair c old_state new_state =
      { context := { c with runtime := some {} },
        trace := [Effect.runScript c.script "voice-start",
                  Effect.pcmOpen c.card c.device StreamDir.capture,
                  Effect.pcmIsReady StreamDir.capture,
                  Effect.pcmPrepare StreamDir.capture,
                  Effect.pcmOpen c.card c.device StreamDir.playback,
                  Effect.pcmIsReady StreamDir.playback,
                  Effect.pcmPrepare StreamDir.playback,
                  Effect.spawnLoopback LoopbackRole.sink,
                  Effect.spawnLoopback LoopbackRole.source],
        fatal := false } := by
  unfold on_state_pair
  simp [hne, hact, hrt, create_runtime_trace]

/-- Witness for C2 at the concrete transition Unknown (0) → Active (4). -/
theorem idle_to_session_transition_witness :
    (0 : Nat) ≠ 4 ∧ is_mm_state_active 4 = true ∧ sampleContext.runtime = none ∧
    on_state_pair sampleContext 0 4 =
      { context := { sampleContext with runtime := some {} },
        trace := [Effect.runScript sampleContext.script "voice-start",
                  Effect.pcmOpen sampleContext.card sampleContext.device StreamDir.capture,
                  Effect.pcmIsReady StreamDir.capture,
                  Effect.pcmPrepare StreamDir.capture,
                  Effect.pcmOpen sampleContext.card sampleContext.device StreamDir.playback,
                  Effect.pcmIsReady StreamDir.playback,
                  Effect.pcmPrepare StreamDir.playback,
                  Effect.spawnLoopback LoopbackRole.sink,
                  Effect.spawnLoopback LoopbackRole.source],
        fatal := false } :=
  ⟨by decide, by decide, rfl,
   idle_to_session_transition sampleContext 0 4 (by decide) (by decide) rfl⟩

/-- C3: a StateChanged event with old ≠ new, old active, new inactive and a
Runtime present performs exactly one destruction — both helper-process
joins, then the two stream releases (joins strictly before any release) —
followed by exactly one voice-stop hook invocation, and the Runtime is
then absent. -/
theorem session_to_idle_transition (c : Context) (rt : Runtime) (old_state new_state : Nat)
    (hne : old_state ≠ new_state)
    (hold : is_mm_state_active old_state = true)
    (hnew : is_mm_state_active new_state = false)
    (hrt : c.runtime = some rt) :
    on_state_pair c old_state new_state =
      { context := { c with runtime := none },
        trace := [Effect.procJoin 0,
                  Effect.procJoin 1,
                  Effect.pcmClose StreamDir.playback,
                  Effect.pcmClose StreamDir.capture,
                  Effect.runScript c.script "voice-stop"],
        fatal := false } := by
  unfold on_state_pair
  simp [hne, hold, hnew, hrt, delete_runtime_trace]

/-- Witness for C3 at the concrete transition Active (4) → Terminated (7). -/
theorem session_to_idle_transition_witness :
    (4 : Nat) ≠ 7 ∧ is_mm_state_active 4 = true ∧ is_mm_state_active 7 = false ∧
    sampleContextRt.runtime = some {} ∧
    on_state_pair sampleContextRt 4 7 =
      { context := { sampleContextRt with runtime := none },
        trace := [Effect.procJoin 0,
                  Effect.procJoin 1,
                  Effect.pcmClose StreamDir.playback,
                  Effect.pcmClose StreamDir.capture,
                  Effect.runScript sampleContextRt.script "voice-stop"],
        fatal := false } :=
  ⟨by decide, by decide, by decide, rfl,
   session_to_idle_transition sampleContextRt {} 4 7 (by decide) (by decide) (by decide) rfl⟩

/-- C5: a StateChanged event with old == new is a complete no-op: no hook
invocation, no effect at all, the context (Runtime field included)
unchanged and no error set — both at the transition level (any state
value, any context) and at the message level (a well-formed body carrying
the same INT32 twice). -/
theorem duplicate_state_noop :
    (∀ (c : Context) (s : Nat),
        on_state_pair c s s = { context := c, trace := [], fatal := false }) ∧
    (∀ (c : Context) (v : Int),
        handle_call_state_changed c [DBusValue.int32 v, DBusValue.int32 v] =
          { context := c, trace := [], fatal := false }) := by
  constructor
  · intro c s
    simp [on_state_pair]
  · intro c v
    simp [handle_call_state_changed, parse_state_args, on_state_pair]

/-- C6: a StateChanged event whose new state is active while a Runtime
already exists performs no creation, no hook, no effect whatsoever, and
leaves the context unchanged (idempotent session open). -/
theorem active_with_runtime_idempotent (c : Context) (rt : Runtime)
    (old_state new_state : Nat)
    (hact : is_mm_state_active new_state = true)
    (hrt : c.runtime = some rt) :
    on_state_pair c old_state new_state = { context := c, trace := [], fatal := false } := by
  unfold on_state_pair
  by_cases he : old_state = new_state
  · simp [he]
  · simp [he, hact, hrt]

/-- Witness for C6 at the repeated-active transition RingingOut (2) → Active (4). -/
theorem active_with_runtime_idempotent_witness :
    is_mm_state_active 4 = true ∧ sampleContextRt.runtime = some {} ∧
    on_state_pair sampleContextRt 2 4 =
      { context := sampleContextRt, trace := [], fatal := false } :=
  ⟨by decide, rfl, active_with_runtime_idempotent sampleContextRt {} 2 4 (by decide) rfl⟩

/-- C7: a CallAdded event on the modem-voice interface unconditionally runs
the hook with action "call-added" and nothing else: the context — the
Runtime field in particular — is returned unchanged, whatever the current
state and whatever the body. -/
theorem call_added_hook :
    ∀ (c : Context) (args : List DBusValue),
      handle_message c
        { interface := some iface_modem_voice, member := some "CallAdded", args := args } =
        some { context := c,
               trace := [Effect.runScript c.script "call-added"],
               fatal := false } := by
  intro c args
  have hne : iface_modem_voice ≠ iface_call := by decide
  simp [handle_message, hne]

/-- C8: invoked with any positional argument count other than three (so
`argc ≠ 4` counting the program name), `main` prints the usage line and
exits with status 1; the effect list contains no bus connection. -/
theorem wrong_arg_count_usage (prog : String) (posArgs : List String)
    (h : posArgs.length ≠ 3) :
    main_startup (prog :: posArgs) =
      ([StartupEffect.printLine usage_message], some 1) := by
  unfold main_startup
  split_ifs with hc
  · rfl
  · exfalso
    rw [List.length_cons] at hc
    push_neg at hc
    omega

/-- Witness for C8 with two positional arguments. -/
theorem wrong_arg_count_usage_witness :
    (["0", "1"] : List String).length ≠ 3 ∧
    main_startup ["q6voiced", "0", "1"] =
      ([StartupEffect.printLine usage_message], some 1) :=
  ⟨by decide, wrong_arg_count_usage "q6voiced" ["0", "1"] (by decide)⟩

/-- C9: a StateChanged event whose body is not exactly two INT32 values
makes the parse fail: the handler performs no hook invocation and no
Runtime mutation and sets the dbus error, and the main loop then aborts —
the remaining queued messages are never processed. -/
theorem malformed_state_changed_fatal (c : Context) (args : List DBusValue)
    (rest : List DBusMessage)
    (h : ∀ a b : Int, args ≠ [DBusValue.int32 a, DBusValue.int32 b]) :
    handle_call_state_changed c args = { context := c, trace := [], fatal := true } ∧
    main_loop c
      ({ interface := some iface_call, member := some "StateChanged", args := args } :: rest) =
      some (c, [], true) := by
  have hp : parse_state_args args = none := by
    cases hps : parse_state_args args with
    | none => rfl
    | some p =>
      obtain ⟨a, b, hab⟩ := parse_state_args_some_shape args p hps
      exact absurd hab (h a b)
  have h1 : handle_call_state_changed c args = { context := c, trace := [], fatal := true } := by
    simp [handle_call_state_changed, hp]
  refine ⟨h1, ?_⟩
  simp [main_loop, handle_message, h1]

/-- Witness for C9 with a body holding a single UINT32 value. -/
theorem malformed_state_changed_fatal_witness :
    (∀ a b : Int, ([DBusValue.uint32 0] : List DBusValue) ≠
      [DBusValue.int32 a, DBusValue.int32 b]) ∧
    (handle_call_state_changed sampleContext [DBusValue.uint32 0] =
        { context := sampleContext, trace := [], fatal := true } ∧
      main_loop sampleContext
        [{ interface := some iface_call, member := some "StateChanged",
           args := [DBusValue.uint32 0] }] =
        some (sampleContext, [], true)) :=
  ⟨by simp, malformed_state_changed_fatal sampleContext [DBusValue.uint32 0] [] (by simp)⟩

/-- C10: `handle_message` builds string views from the interface and member
pointers with no null check, so its behaviour is defined only when both
are present (modelled as `none` — undefined — otherwise); under that
precondition, every (interface, member) pair other than
(call, "StateChanged") and (modem-voice, "CallAdded") is ignored with no
side effect and an unchanged context. -/
theorem handle_message_totality (c : Context) (message : DBusMessage) :
    ((message.interface = none ∨ message.member = none) →
        handle_message c message = none) ∧
    (∀ i m, message.interface = some i → message.member = some m →
        ¬ (i = iface_call ∧ m = "StateChanged") →
        ¬ (i = iface_modem_voice ∧ m = "CallAdded") →
        handle_message c message =
          some { context := c, trace := [], fatal := false }) := by
  constructor
  · intro h
    cases hmi : message.interface with
    | none => simp [handle_message, hmi]
    | some i =>
      rcases h with h | h
      · rw [hmi] at h
        cases h
      · simp [handle_message, hmi, h]
  · intro i m hi hm hsc hca
    by_cases h1 : i = iface_call
    · have hm1 : m ≠ "StateChanged" := fun hh => hsc ⟨h1, hh⟩
      simp [handle_message, hi, hm, h1, hm1]
    · by_cases h2 : i = iface_modem_voice
      · have hm2 : m ≠ "CallAdded" := fun hh => hca ⟨h2, hh⟩
        have hne : iface_modem_voice ≠ iface_call := by decide
        simp [handle_message, hi, hm, h1, h2, hm2, hne]
      · simp [handle_message, hi, hm, h1, h2]

/-- Witness for C10: a null-interface message is undefined, and an
unrecognized pair is ignored. -/
theorem handle_message_totality_witness :
    handle_message sampleContext { interface := none, member := some "x", args := [] } = none ∧
    handle_message sampleContext
      { interface := some "org.example.Other", member := some "Whatever", args := [] } =
      some { context := sampleContext, trace := [], fatal := false } :=
  ⟨(handle_message_totality sampleContext _).1 (Or.inl rfl),
   (handle_message_totality sampleContext _).2 "org.example.Other" "Whatever" rfl rfl
     (by decide) (by decide)⟩

end Q6Voiced
